import Mathlib

/-!
Verification development for the csv-backend job lifecycle subsystem.

The definitions below are a shallow embedding of the repository's code:
the job record and Job Store operations (the store itself is modelled from
the design document, since its module is not among the provided sources;
every caller-visible field name is taken from the handlers in
`src/routes/jobs.js`), the upload/status/download-url/execution route
handlers (`src/routes/jobs.js`) and the callback rate limiter
(`src/middleware/rateLimiter.js`).

The n8n Workflow Forwarder (`services/n8nClient.js`) is embedded only at
the static level: its `forwardToN8n` `try` block declares the lexical
`const fileType` twice (lines 64 and 78), which in JavaScript is an early
SyntaxError — the module fails at parse time, so the function body has no
runtime semantics to embed.  The development therefore carries a
transcription of that block's declarations and the load rule, from which
the load failure (and its propagation to `src/routes/jobs.js`, which
requires the client on line 7) is proved.

JavaScript values that may be `undefined` are embedded as `Option String`;
JavaScript truthiness of such a value is `jsTruthyStr`; strict equality
`===` between two possibly-`undefined` strings is `Option` equality
(`undefined === undefined` is `true`).  Thrown JavaScript errors are
embedded as the `.error` side of `Except`.
-/

/-- Job lifecycle states: `pending`, `done`, `error` (spec section 3). -/
inductive JobStatus
  | pending
  | done
  | error
deriving DecidableEq, Repr

/-- A job record.  Field names are the ones the route handlers in
`src/routes/jobs.js` read: `status`, `filenamePdf`, `createdAt`,
`updatedAt`, `executionId`, `executionStatus`, `executionMessage`,
`executionMode`, `webhookUrl`, `r2Key`, `presignedUrl`, `error`. -/
structure Job where
  filenamePdf : String
  status : JobStatus
  createdAt : Nat
  updatedAt : Nat
  executionId : Option String := none
  executionStatus : Option String := none
  executionMessage : Option String := none
  executionMode : Option String := none
  webhookUrl : Option String := none
  r2Key : Option String := none
  presignedUrl : Option String := none
  error : Option String := none
deriving DecidableEq, Repr

/-- The in-process job registry: an association list from job id to record. -/
def JobStore : Type := List (String × Job)

/-- Lookup of a job record by id (`getJob` of the Job Store). -/
def getJob : JobStore → String → Option Job
  | [], _ => none
  | (k, j) :: rest, id => if k = id then some j else getJob rest id

/-- Replace the record stored under `id` (no-op when `id` is absent). -/
def setJob : JobStore → String → Job → JobStore
  | [], _, _ => []
  | (k, j0) :: rest, id, j =>
      if k = id then (k, j) :: rest else (k, j0) :: setJob rest id j

/-- Modelled from the spec: `jobStore.js` is not among the provided sources.
`createJob(id, sourceFilename)` fails if `id` already exists, otherwise
initializes `status = pending` and both timestamps to now (spec 4.2).
The returned flag is `false` exactly on the duplicate-id failure. -/
def createJob (s : JobStore) (id fname : String) (now : Nat) : JobStore × Bool :=
  match getJob s id with
  | some _ => (s, false)
  | none =>
      ((id, { filenamePdf := fname, status := JobStatus.pending,
              createdAt := now, updatedAt := now }) :: s, true)

/-- Modelled from the spec: `completeJob(id, resultRef)` transitions
`pending → done`, sets the result reference and refreshes `updatedAt`;
it is ignored (idempotent-safe, not fatal) if the job is absent or
already terminal (spec 4.2). -/
def completeJob (s : JobStore) (id ref : String) (now : Nat) : JobStore :=
  match getJob s id with
  | none => s
  | some j =>
      match j.status with
      | JobStatus.pending =>
          setJob s id { j with status := JobStatus.done, r2Key := some ref,
                               updatedAt := now }
      | _ => s

/-- Modelled from the spec: `failJob(id, reason)` transitions
`pending → error`, sets the error reason and refreshes `updatedAt`;
ignored if the job is absent or already terminal (spec 4.2). -/
def failJob (s : JobStore) (id reason : String) (now : Nat) : JobStore :=
  match getJob s id with
  | none => s
  | some j =>
      match j.status with
      | JobStatus.pending =>
          setJob s id { j with status := JobStatus.error, error := some reason,
                               updatedAt := now }
      | _ => s

/-- Execution correlation record attached by `updateExecutionDetails`
(field names from `src/routes/jobs.js` lines 58-64). -/
structure ExecDetails where
  executionId : Option String := none
  executionStatus : Option String := none
  executionMessage : Option String := none
  webhookUrl : Option String := none
  executionMode : Option String := none
deriving DecidableEq, Repr

/-- Modelled from the spec: `updateExecutionDetails(id, executionRecord)`
attaches execution metadata to an existing pending job; a no-op if the job
is absent or already terminal (spec 4.2, 9). -/
def updateExecutionDetails (s : JobStore) (id : String) (d : ExecDetails)
    (now : Nat) : JobStore :=
  match getJob s id with
  | none => s
  | some j =>
      match j.status with
      | JobStatus.pending =>
          setJob s id { j with executionId := d.executionId,
                               executionStatus := d.executionStatus,
                               executionMessage := d.executionMessage,
                               webhookUrl := d.webhookUrl,
                               executionMode := d.executionMode,
                               updatedAt := now }
      | _ => s

/-- Modelled from the spec: `updateJob(id, partial)` restricted to
non-status fields; the only use in the sources refreshes the stored
download reference `presignedUrl` (spec 4.2, `src/routes/jobs.js` line 189). -/
def updateJob (s : JobStore) (id url : String) (now : Nat) : JobStore :=
  match getJob s id with
  | none => s
  | some j => setJob s id { j with presignedUrl := some url, updatedAt := now }

/-- One terminal-transition request delivered to the Job Store: a
`completeJob` or a `failJob` call. -/
inductive JobEvent
  | complete (id ref : String) (now : Nat)
  | fail (id reason : String) (now : Nat)
deriving DecidableEq, Repr

/-- Apply one `completeJob`/`failJob` call to the store. -/
def applyEvent (s : JobStore) : JobEvent → JobStore
  | JobEvent.complete id ref now => completeJob s id ref now
  | JobEvent.fail id reason now => failJob s id reason now

/-- Apply a sequence of `completeJob`/`failJob` calls, in order. -/
def applyEvents (s : JobStore) : List JobEvent → JobStore
  | [] => s
  | e :: es => applyEvents (applyEvent s e) es

theorem getJob_setJob_ne (s : JobStore) (id id' : String) (j : Job)
    (h : id' ≠ id) : getJob (setJob s id' j) id = getJob s id := by
  induction s with
  | nil => rfl
  | cons p rest ih =>
      obtain ⟨k, j0⟩ := p
      by_cases hk : k = id'
      · subst hk
        simp [setJob, getJob, h]
      · simp only [setJob, if_neg hk]
        by_cases hk2 : k = id
        · subst hk2; simp [getJob]
        · simp [getJob, hk2, ih]

theorem getJob_setJob_self (s : JobStore) (id : String) (j0 j : Job)
    (h : getJob s id = some j0) : getJob (setJob s id j) id = some j := by
  induction s with
  | nil => simp [getJob] at h
  | cons p rest ih =>
      obtain ⟨k, jk⟩ := p
      by_cases hk : k = id
      · subst hk; simp [setJob, getJob]
      · simp only [getJob, if_neg hk] at h
        simp [setJob, getJob, hk, ih h]

/-- Running `completeJob` for one id leaves every other id's record alone. -/
theorem completeJob_get_ne (s : JobStore) (eid id ref : String) (now : Nat)
    (h : ¬eid = id) : getJob (completeJob s eid ref now) id = getJob s id := by
  unfold completeJob
  cases hegid : getJob s eid with
  | none => rfl
  | some je =>
      cases hst : je.status <;>
        simp [hst, getJob_setJob_ne s id eid _ h]

/-- Running `failJob` for one id leaves every other id's record alone. -/
theorem failJob_get_ne (s : JobStore) (eid id reason : String) (now : Nat)
    (h : ¬eid = id) : getJob (failJob s eid reason now) id = getJob s id := by
  unfold failJob
  cases hegid : getJob s eid with
  | none => rfl
  | some je =>
      cases hst : je.status <;>
        simp [hst, getJob_setJob_ne s id eid _ h]

/-- Running `completeJob` on a terminal job is the identity on the store. -/
theorem completeJob_terminal_eq (s : JobStore) (id ref : String) (now : Nat)
    (j : Job) (hget : getJob s id = some j)
    (hterm : j.status ≠ JobStatus.pending) :
    completeJob s id ref now = s := by
  cases hst : j.status with
  | pending => exact absurd hst hterm
  | done => simp [completeJob, hget, hst]
  | error => simp [completeJob, hget, hst]

/-- Running `failJob` on a terminal job is the identity on the store. -/
theorem failJob_terminal_eq (s : JobStore) (id reason : String) (now : Nat)
    (j : Job) (hget : getJob s id = some j)
    (hterm : j.status ≠ JobStatus.pending) :
    failJob s id reason now = s := by
  cases hst : j.status with
  | pending => exact absurd hst hterm
  | done => simp [failJob, hget, hst]
  | error => simp [failJob, hget, hst]

/-- Running `completeJob` on a pending job rewrites the record to `done`. -/
theorem completeJob_pending_eq (s : JobStore) (id ref : String) (now : Nat)
    (j : Job) (hget : getJob s id = some j)
    (hp : j.status = JobStatus.pending) :
    completeJob s id ref now =
      setJob s id { j with status := JobStatus.done, r2Key := some ref,
                           updatedAt := now } := by
  simp [completeJob, hget, hp]

/-- Running `failJob` on a pending job rewrites the record to `error`. -/
theorem failJob_pending_eq (s : JobStore) (id reason : String) (now : Nat)
    (j : Job) (hget : getJob s id = some j)
    (hp : j.status = JobStatus.pending) :
    failJob s id reason now =
      setJob s id { j with status := JobStatus.error, error := some reason,
                           updatedAt := now } := by
  simp [failJob, hget, hp]

/-- A terminal record is untouched by any single `completeJob`/`failJob` call. -/
theorem applyEvent_terminal_fixed (s : JobStore) (id : String) (j : Job)
    (hget : getJob s id = some j) (hterm : j.status ≠ JobStatus.pending)
    (e : JobEvent) : getJob (applyEvent s e) id = some j := by
  cases e with
  | complete eid ref now =>
      show getJob (completeJob s eid ref now) id = some j
      by_cases heq : eid = id
      · subst heq
        rw [completeJob_terminal_eq s eid ref now j hget hterm]
        exact hget
      · rw [completeJob_get_ne s eid id ref now heq]
        exact hget
  | fail eid reason now =>
      show getJob (failJob s eid reason now) id = some j
      by_cases heq : eid = id
      · subst heq
        rw [failJob_terminal_eq s eid reason now j hget hterm]
        exact hget
      · rw [failJob_get_ne s eid id reason now heq]
        exact hget

/-- A terminal record is untouched by any sequence of `completeJob`/`failJob`
calls. -/
theorem applyEvents_terminal_fixed (evs : List JobEvent) :
    ∀ (s : JobStore) (id : String) (j : Job),
      getJob s id = some j → j.status ≠ JobStatus.pending →
      getJob (applyEvents s evs) id = some j := by
  induction evs with
  | nil => intro s id j hget _; exact hget
  | cons e es ih =>
      intro s id j hget hterm
      exact ih (applyEvent s e) id j
        (applyEvent_terminal_fixed s id j hget hterm e) hterm

/-- Second `completeJob` on the same id is the identity on the store. -/
theorem completeJob_idem (s : JobStore) (id ref ref' : String) (t t' : Nat) :
    completeJob (completeJob s id ref t) id ref' t' = completeJob s id ref t := by
  cases hget : getJob s id with
  | none => simp [completeJob, hget]
  | some j =>
      cases hst : j.status with
      | pending =>
          rw [completeJob_pending_eq s id ref t j hget hst]
          exact completeJob_terminal_eq _ id ref' t' _
            (getJob_setJob_self s id j _ hget) (fun h => nomatch h)
      | done =>
          rw [completeJob_terminal_eq s id ref t j hget (by rw [hst]; nofun)]
          exact completeJob_terminal_eq s id ref' t' j hget (by rw [hst]; nofun)
      | error =>
          rw [completeJob_terminal_eq s id ref t j hget (by rw [hst]; nofun)]
          exact completeJob_terminal_eq s id ref' t' j hget (by rw [hst]; nofun)

/-- A single store event changes a record only by a `pending → done` or
`pending → error` transition. -/
theorem applyEvent_monotone (s : JobStore) (e : JobEvent) (id : String)
    (j j' : Job) (hget : getJob s id = some j)
    (hget' : getJob (applyEvent s e) id = some j') (hne : j' ≠ j) :
    j.status = JobStatus.pending ∧
      (j'.status = JobStatus.done ∨ j'.status = JobStatus.error) := by
  by_cases hp : j.status = JobStatus.pending
  · refine ⟨hp, ?_⟩
    cases e with
    | complete eid ref now =>
        replace hget' : getJob (completeJob s eid ref now) id = some j' := hget'
        by_cases heq : eid = id
        · subst heq
          rw [completeJob_pending_eq s eid ref now j hget hp,
              getJob_setJob_self s eid j _ hget] at hget'
          cases hget'
          left; rfl
        · rw [completeJob_get_ne s eid id ref now heq, hget] at hget'
          cases hget'
          exact absurd rfl hne
    | fail eid reason now =>
        replace hget' : getJob (failJob s eid reason now) id = some j' := hget'
        by_cases heq : eid = id
        · subst heq
          rw [failJob_pending_eq s eid reason now j hget hp,
              getJob_setJob_self s eid j _ hget] at hget'
          cases hget'
          right; rfl
        · rw [failJob_get_ne s eid id reason now heq, hget] at hget'
          cases hget'
          exact absurd rfl hne
  · rw [applyEvent_terminal_fixed s id j hget hp e] at hget'
    cases hget'
    exact absurd rfl hne

/-- C1: for every job record and every sequence of `completeJob`/`failJob`
calls, the status only ever transitions `pending → done` or
`pending → error` (any observable change of a record starts from `pending`
and lands in a terminal state), a record in a terminal state is never left
by any sequence of such calls, and a second `completeJob` on an
already-done job — with the same or a different `resultRef` — leaves the
store identical to the effect of the first call, without raising. -/
theorem completeJob_failJob_monotone_terminal_idempotent :
    (∀ (s : JobStore) (e : JobEvent) (id : String) (j j' : Job),
        getJob s id = some j → getJob (applyEvent s e) id = some j' →
        j' ≠ j →
        j.status = JobStatus.pending ∧
          (j'.status = JobStatus.done ∨ j'.status = JobStatus.error)) ∧
    (∀ (s : JobStore) (id : String) (j : Job) (evs : List JobEvent),
        getJob s id = some j → j.status ≠ JobStatus.pending →
        getJob (applyEvents s evs) id = some j) ∧
    (∀ (s : JobStore) (id ref ref' : String) (t t' : Nat),
        completeJob (completeJob s id ref t) id ref' t' =
          completeJob s id ref t) := by
  refine ⟨?_, ?_, ?_⟩
  · intro s e id j j' hget hget' hne
    exact applyEvent_monotone s e id j j' hget hget' hne
  · intro s id j evs hget hterm
    exact applyEvents_terminal_fixed evs s id j hget hterm
  · intro s id ref ref' t t'
    exact completeJob_idem s id ref ref' t t'

/-- Demonstration job record in the terminal `done` state. -/
def demoDoneJob : Job :=
  { filenamePdf := "report.pdf", status := JobStatus.done,
    createdAt := 0, updatedAt := 1, r2Key := some "r1" }

/-- Demonstration store holding one `done` job under id `"a"`. -/
def demoStore : JobStore := [("a", demoDoneJob)]

/-- Witness for C1: the terminal-preservation conjunct applied to the
concrete one-job store, with a duplicate completion and a late failure
callback delivered. -/
theorem completeJob_failJob_monotone_terminal_idempotent_witness :
    getJob (applyEvents demoStore
      [JobEvent.complete "a" "r2" 5, JobEvent.fail "a" "boom" 6]) "a" =
      some demoDoneJob :=
  completeJob_failJob_monotone_terminal_idempotent.2.1 demoStore "a"
    demoDoneJob [JobEvent.complete "a" "r2" 5, JobEvent.fail "a" "boom" 6]
    rfl (by decide)

/-- Kind of a thrown JavaScript error: a `TypeError` (e.g. reading a
property of `undefined`) or an ordinary `Error`. -/
inductive JsErrorKind
  | typeError
  | genericError
deriving DecidableEq, Repr

/-- A thrown JavaScript error, carrying its kind and message. -/
structure JsError where
  kind : JsErrorKind
  msg : String
deriving DecidableEq, Repr

/-- JavaScript truthiness of a possibly-`undefined` string: `undefined`
and the empty string are falsy, every other string is truthy. -/
def jsTruthyStr : Option String → Bool
  | none => false
  | some s => !s.isEmpty

/-- Lexical `const` declarations in the `try` block of `forwardToN8n`
(`services/n8nClient.js` lines 38-104), transcribed in source order:
`formData` (line 40), `contentType` (43), `fileExtension` (44),
`csvFileName` (45), `fileStream` (48), `fileType` (64), `response` (68),
`fileType` again (78), `responseData` (82).  Declarations inside nested
blocks (the `if` body opened on line 83, the `catch` block from line 105)
belong to other scopes and are not part of this block. -/
def forwardTryBlockConstDecls : List String :=
  ["formData", "contentType", "fileExtension", "csvFileName", "fileStream",
   "fileType", "response", "fileType", "responseData"]

/-- First name declared twice in one block, if any. -/
def firstDuplicateDecl : List String -> Option String
  | [] => none
  | d :: rest => if rest.contains d then some d else firstDuplicateDecl rest

/-- Outcome of loading a CommonJS module: either the module evaluates, or
parsing fails with an early error (a JavaScript SyntaxError) before any of
its statements run; the payload is the offending duplicated identifier. -/
inductive ModuleLoad
  | ok
  | earlyError (dup : String)
deriving DecidableEq, Repr

/-- JavaScript block-scoping rule: a block that declares the same lexical
(`const`) name twice is an early SyntaxError, detected when the containing
module is parsed — so the module fails to load before any statement of its
body (or any function it defines) can run. -/
def loadModuleWithBlockDecls (decls : List String) : ModuleLoad :=
  match firstDuplicateDecl decls with
  | some d => ModuleLoad.earlyError d
  | none => ModuleLoad.ok

/-- Loading `services/n8nClient.js`: the module body contains the
`forwardToN8n` `try` block, so the module loads only if that block's
lexical declarations are well-formed. -/
def loadN8nClientModule : ModuleLoad :=
  loadModuleWithBlockDecls forwardTryBlockConstDecls

/-- Loading `src/routes/jobs.js`: line 7 requires
`../services/n8nClient`, and a required module whose load fails rethrows
at the `require` call — so the jobs router loads only if the n8n client
does. -/
def loadJobsRouter : ModuleLoad :=
  match loadN8nClientModule with
  | ModuleLoad.earlyError d => ModuleLoad.earlyError d
  | ModuleLoad.ok => ModuleLoad.ok

/-- The acknowledgment record shape the upload handler destructures from a
settled forward: `src/routes/jobs.js` lines 57-64 and 85-91 read
`executionId`, `executionStatus`, `message`, `webhookUrl` and
`executionMode` off it; `success` and `status` complete the shape built at
`services/n8nClient.js` lines 87-103 (a shape no run ever produces, since
that module never loads). -/
structure AckResult where
  success : Bool
  status : Nat
  executionId : Option String := none
  executionStatus : Option String := none
  message : Option String := none
  webhookUrl : Option String := none
  executionMode : Option String := none
deriving DecidableEq, Repr

/-- Execution details as embedded in the upload (201) response
(`src/routes/jobs.js` lines 86-91: `id`, `status`, `message`, `mode`). -/
structure UploadExecView where
  id : Option String
  status : Option String
  message : Option String
  mode : Option String
deriving DecidableEq, Repr

/-- Body of the 201 upload response (`src/routes/jobs.js` lines 78-94). -/
structure UploadResponse where
  jobId : String
  message : String
  filename : String
  execution : Option UploadExecView := none
deriving DecidableEq, Repr

/-- Result of running the upload handler: the Job Store it leaves behind,
the temp-file paths whose removal was attempted, whether a cleanup failure
was logged as a warning, and the response or rethrown error. -/
structure UploadOut where
  store : JobStore
  unlinkAttempts : List String
  cleanupWarned : Bool
  result : Except JsError UploadResponse

/-- Composition of a forward acknowledgment into a store update, as the
upload handler does it (`src/routes/jobs.js` lines 56-66): when the
acknowledgment carries a truthy `executionId` the handler calls
`updateExecutionDetails`, otherwise the store is untouched. -/
def composeAck (s : JobStore) (jobId : String) (ack : AckResult)
    (now : Nat) : JobStore :=
  if jsTruthyStr ack.executionId then
    updateExecutionDetails s jobId
      { executionId := ack.executionId,
        executionStatus := ack.executionStatus,
        executionMessage := ack.message,
        webhookUrl := ack.webhookUrl,
        executionMode := ack.executionMode } now
  else s

/-- Continuation of the upload handler after the forward settles
(`src/routes/jobs.js` lines 56-110).  Success path: compose the
acknowledgment into the store, attempt temp-file removal (failure only
warns), answer 201.  Failure path (`catch`): attempt temp-file removal
(failure only warns), `failJob(jobId, error.message)` when `jobId` is
truthy, rethrow the error. -/
def finishUpload (s1 : JobStore) (jobId originalname filePath : String)
    (fwd : Except JsError AckResult) (unlinkFails : Bool)
    (now : Nat) : UploadOut :=
  match fwd with
  | Except.ok ack =>
      { store := composeAck s1 jobId ack now,
        unlinkAttempts := [filePath],
        cleanupWarned := unlinkFails,
        result := Except.ok
          { jobId := jobId,
            message := "PDF uploaded and processing started",
            filename := originalname,
            execution :=
              if jsTruthyStr ack.executionId then
                some { id := ack.executionId, status := ack.executionStatus,
                       message := ack.message, mode := ack.executionMode }
              else none } }
  | Except.error e =>
      { store := if jobId.isEmpty then s1 else failJob s1 jobId e.msg now,
        unlinkAttempts := [filePath],
        cleanupWarned := unlinkFails,
        result := Except.error e }

/-- A typed API error produced by `createError(message, status, code)`
(`src/middleware/errors.js` usage throughout `src/routes/jobs.js`). -/
structure ApiError where
  httpStatus : Nat
  code : String
  msg : String
deriving DecidableEq, Repr

/-- Result of a read-only handler: the `getJob` lookups it performed, in
order, and the response or thrown API error. -/
structure HandlerOut (α : Type) where
  lookups : List String
  result : Except ApiError α

/-- Execution details as embedded in status/execution responses
(`src/routes/jobs.js` lines 139-145 and 224-230). -/
structure StatusExecView where
  id : Option String
  status : Option String
  message : Option String
  mode : Option String
  webhookUrl : Option String
deriving DecidableEq, Repr

/-- Body of the status response (`src/routes/jobs.js` lines 128-156). -/
structure StatusResponse where
  jobId : String
  status : JobStatus
  ready : Bool
  filename : String
  createdAt : Nat
  updatedAt : Nat
  execution : Option StatusExecView := none
  downloadUrl : Option String := none
  error : Option String := none
deriving DecidableEq, Repr

/-- The status projection of one job record (`src/routes/jobs.js`
lines 128-156): `ready` is `status === 'done'`; `execution` is attached
when `job.executionId` is truthy; `downloadUrl` when the job is done and
`job.presignedUrl` is truthy; `error` when the job failed and `job.error`
is truthy. -/
def statusResponseOf (jobId : String) (job : Job) : StatusResponse :=
  { jobId := jobId,
    status := job.status,
    ready := job.status == JobStatus.done,
    filename := job.filenamePdf,
    createdAt := job.createdAt,
    updatedAt := job.updatedAt,
    execution :=
      if jsTruthyStr job.executionId then
        some { id := job.executionId, status := job.executionStatus,
               message := job.executionMessage, mode := job.executionMode,
               webhookUrl := job.webhookUrl }
      else none,
    downloadUrl :=
      if job.status == JobStatus.done && jsTruthyStr job.presignedUrl then
        job.presignedUrl
      else none,
    error :=
      if job.status == JobStatus.error && jsTruthyStr job.error then
        job.error
      else none }

/-- Shallow embedding of `GET /api/jobs/:jobId/status`
(`src/routes/jobs.js` lines 116-159), parametrised by the identifier
validator `isValidJobId` (its module `utils/ids.js` is not among the
provided sources; the handler only consults it as a boolean test). -/
def statusHandler (isValid : String → Bool) (s : JobStore)
    (jobId : String) : HandlerOut StatusResponse :=
  if !isValid jobId then
    { lookups := [],
      result := Except.error
        { httpStatus := 400, code := "INVALID_JOB_ID",
          msg := "Invalid job ID format" } }
  else
    match getJob s jobId with
    | none =>
        { lookups := [jobId],
          result := Except.error
            { httpStatus := 404, code := "JOB_NOT_FOUND",
              msg := "Job not found" } }
    | some job =>
        { lookups := [jobId], result := Except.ok (statusResponseOf jobId job) }

/-- Body of the download-url response (`src/routes/jobs.js` lines 191-195). -/
structure DownloadUrlResponse where
  url : String
  filename : String
  expiresInSeconds : Nat
deriving DecidableEq, Repr

/-- Result of the download-url handler: lookups, the Job Store it leaves
behind, and the response or thrown API error. -/
structure DownloadOut where
  lookups : List String
  store : JobStore
  result : Except ApiError DownloadUrlResponse

/-- The `filename.replace(/\.pdf$/i, '.csv')` rewrite
(`src/routes/jobs.js` line 193). -/
def replacePdfWithCsv (name : String) : String :=
  if name.toLower.endsWith ".pdf" then name.dropRight 4 ++ ".csv" else name

/-- Shallow embedding of `GET /api/jobs/:jobId/download-url`
(`src/routes/jobs.js` lines 164-201).  `genUrl` is the outcome
`mongoClient.generateDownloadUrl(jobId)` would settle with (its module is
not among the provided sources; the handler treats it as an opaque
collaborator returning a URL or throwing). -/
def downloadUrlHandler (isValid : String → Bool)
    (genUrl : String → Except String String) (s : JobStore)
    (jobId : String) (now : Nat) : DownloadOut :=
  if !isValid jobId then
    { lookups := [], store := s,
      result := Except.error
        { httpStatus := 400, code := "INVALID_JOB_ID",
          msg := "Invalid job ID format" } }
  else
    match getJob s jobId with
    | none =>
        { lookups := [jobId], store := s,
          result := Except.error
            { httpStatus := 404, code := "JOB_NOT_FOUND",
              msg := "Job not found" } }
    | some job =>
        if job.status != JobStatus.done then
          { lookups := [jobId], store := s,
            result := Except.error
              { httpStatus := 400, code := "JOB_NOT_READY",
                msg := "Job not completed yet" } }
        else if !jsTruthyStr job.r2Key then
          { lookups := [jobId], store := s,
            result := Except.error
              { httpStatus := 500, code := "CSV_NOT_AVAILABLE",
                msg := "CSV file not available" } }
        else
          match genUrl jobId with
          | Except.error _ =>
              { lookups := [jobId], store := s,
                result := Except.error
                  { httpStatus := 500, code := "DOWNLOAD_URL_ERROR",
                    msg := "Failed to generate download URL" } }
          | Except.ok url =>
              { lookups := [jobId], store := updateJob s jobId url now,
                result := Except.ok
                  { url := url,
                    filename := replacePdfWithCsv job.filenamePdf,
                    expiresInSeconds := 3600 } }

/-- Body of the execution-detail response
(`src/routes/jobs.js` lines 222-234). -/
structure ExecutionResponse where
  jobId : String
  execution : StatusExecView
  jobStatus : JobStatus
  createdAt : Nat
  updatedAt : Nat
deriving DecidableEq, Repr

/-- Shallow embedding of `GET /api/jobs/:jobId/execution`
(`src/routes/jobs.js` lines 206-235). -/
def executionHandler (isValid : String → Bool) (s : JobStore)
    (jobId : String) : HandlerOut ExecutionResponse :=
  if !isValid jobId then
    { lookups := [],
      result := Except.error
        { httpStatus := 400, code := "INVALID_JOB_ID",
          msg := "Invalid job ID format" } }
  else
    match getJob s jobId with
    | none =>
        { lookups := [jobId],
          result := Except.error
            { httpStatus := 404, code := "JOB_NOT_FOUND",
              msg := "Job not found" } }
    | some job =>
        if !jsTruthyStr job.executionId then
          { lookups := [jobId],
            result := Except.error
              { httpStatus := 404, code := "NO_EXECUTION_INFO",
                msg := "No execution information available for this job" } }
        else
          { lookups := [jobId],
            result := Except.ok
              { jobId := jobId,
                execution :=
                  { id := job.executionId, status := job.executionStatus,
                    message := job.executionMessage,
                    mode := job.executionMode,
                    webhookUrl := job.webhookUrl },
                jobStatus := job.status,
                createdAt := job.createdAt,
                updatedAt := job.updatedAt } }

/-- The `skip` predicate of the callback rate limiter
(`src/middleware/rateLimiter.js` lines 125-128): strict equality between
the `x-callback-secret` header and the `CALLBACK_SECRET` environment
value, both possibly `undefined` — and `undefined === undefined` is
`true`. -/
def callbackSkip (headerSecret envSecret : Option String) : Bool :=
  headerSecret == envSecret

/-- Increment the hit counter stored under `key`. -/
def bumpCount (counts : List (String × Nat)) (key : String) :
    List (String × Nat) :=
  match counts with
  | [] => [(key, 1)]
  | (k, n) :: rest =>
      if k = key then (k, n + 1) :: rest else (k, n) :: bumpCount rest key

/-- Accounting step of the callback limiter
(`src/middleware/rateLimiter.js` lines 113-129): a skipped request leaves
the counters alone, any other request is counted against the per-IP key
`ip + '-callback'`. -/
def callbackLimiterStep (counts : List (String × Nat)) (ip : String)
    (headerSecret envSecret : Option String) : List (String × Nat) :=
  if callbackSkip headerSecret envSecret then counts
  else bumpCount counts (ip ++ "-callback")

/-- Payload of an asynchronous completion callback: success with a result
reference, or failure with a reason. -/
inductive CallbackOutcome
  | success (resultRef : String)
  | failure (reason : String)
deriving DecidableEq, Repr

/-- Modelled from the spec: the Callback Receiver route (`/api/n8n/*`) is
not among the provided sources.  Per spec 4.4 it authenticates the caller
by exact match of the shared-secret header against the configured secret,
rejecting before any store mutation; it then validates the job id syntax
and existence, and applies `completeJob`/`failJob`. -/
def onCallback (envSecret headerSecret : Option String)
    (isValid : String → Bool) (jobId : String) (outcome : CallbackOutcome)
    (now : Nat) (s : JobStore) : JobStore × Except ApiError Unit :=
  if !(headerSecret == envSecret) then
    (s, Except.error
      { httpStatus := 401, code := "UNAUTHORIZED",
        msg := "Invalid callback secret" })
  else if !isValid jobId then
    (s, Except.error
      { httpStatus := 400, code := "INVALID_JOB_ID",
        msg := "Invalid job ID format" })
  else
    match getJob s jobId with
    | none =>
        (s, Except.error
          { httpStatus := 404, code := "JOB_NOT_FOUND",
            msg := "Job not found" })
    | some _ =>
        match outcome with
        | CallbackOutcome.success ref => (completeJob s jobId ref now, Except.ok ())
        | CallbackOutcome.failure reason => (failJob s jobId reason now, Except.ok ())

/-- The 400 error thrown on a malformed job id. -/
def invalidJobIdError : ApiError :=
  { httpStatus := 400, code := "INVALID_JOB_ID", msg := "Invalid job ID format" }

/-- The 404 error thrown on an unknown job id. -/
def jobNotFoundError : ApiError :=
  { httpStatus := 404, code := "JOB_NOT_FOUND", msg := "Job not found" }

/-- The 400 error thrown when a download URL is requested before the job
is done. -/
def jobNotReadyError : ApiError :=
  { httpStatus := 400, code := "JOB_NOT_READY", msg := "Job not completed yet" }

/-- The 401 error the callback receiver answers to a bad shared secret. -/
def unauthorizedError : ApiError :=
  { httpStatus := 401, code := "UNAUTHORIZED", msg := "Invalid callback secret" }

/-- A nonempty string has `isEmpty = false`. -/
theorem isEmpty_false_of_ne (str : String) (h : str ≠ "") :
    str.isEmpty = false := by
  cases hs : str.isEmpty with
  | false => rfl
  | true => exact absurd ((String.isEmpty_iff str).mp hs) h

/-- Truthiness of a stored optional string that is never the empty string
agrees with presence. -/
theorem jsTruthyStr_eq_isSome (o : Option String) (h : o ≠ some "") :
    jsTruthyStr o = o.isSome := by
  cases o with
  | none => rfl
  | some str =>
      have hne : str ≠ "" := fun hs => h (by rw [hs])
      simp [jsTruthyStr, isEmpty_false_of_ne str hne]

/-- Counterexample to C2 as stated: the `try` block of `forwardToN8n`
declares `fileType` twice (`services/n8nClient.js` lines 64 and 78), so
loading the module is an early SyntaxError — the function never parses,
never runs on any upload, and in particular never throws a `TypeError` at
`mimetype.startsWith`. -/
theorem forward_typeerror_counterexample :
    firstDuplicateDecl forwardTryBlockConstDecls = some "fileType" ∧
    loadN8nClientModule = ModuleLoad.earlyError "fileType" := by decide

/-- C2 (amended): calling `forwardToN8n` without a `mimetype` can never
happen, because `forwardToN8n` can never be called at all — the duplicate
`const fileType` declarations in its `try` block (lines 64 and 78) make
loading `services/n8nClient.js` an early SyntaxError, and the failure
propagates to `src/routes/jobs.js`, which requires the client on line 7;
so no upload is ever forwarded and the upload handler (error path
included) never runs. -/
theorem forward_never_runs_module_load_fails :
    loadN8nClientModule = ModuleLoad.earlyError "fileType" ∧
    loadJobsRouter = ModuleLoad.earlyError "fileType" := by decide

/-- C3: the forwarding contract (spec 4.3: failures surfaced as thrown
typed forwarding failures, no Job Store mutation) is unfulfillable by the
code as written: evaluated at its failing input — loading
`services/n8nClient.js` — the module raises the duplicate-declaration
early error (`fileType` is declared twice in the `forwardToN8n` `try`
block), so the Workflow Forwarder never exists at runtime and no
invocation of it can surface anything. -/
theorem forwarder_contract_module_never_loads :
    loadN8nClientModule = ModuleLoad.earlyError "fileType" ∧
    forwardTryBlockConstDecls.count "fileType" = 2 := by decide

/-- C4: if the forward step of an upload fails, the upload handler marks
the job `error` via `failJob(jobId, message)` with the underlying failure
message, re-raises the failure to the client, and attempts removal of the
temporary file on every exit path (the success branch and the catch branch
alike); a failure of the cleanup itself changes neither the store, nor the
response, nor the attempted removals — it is only logged. -/
theorem upload_error_path_failjob_cleanup_rethrow :
    (∀ (s1 : JobStore) (jobId oname fpath : String)
        (fwd : Except JsError AckResult) (uf : Bool) (t : Nat),
        (finishUpload s1 jobId oname fpath fwd uf t).unlinkAttempts =
          [fpath]) ∧
    (∀ (s1 : JobStore) (jobId oname fpath : String) (e : JsError)
        (uf : Bool) (t : Nat), jobId ≠ "" →
        (finishUpload s1 jobId oname fpath (Except.error e) uf t).store =
            failJob s1 jobId e.msg t ∧
        (finishUpload s1 jobId oname fpath (Except.error e) uf t).result =
            Except.error e) ∧
    (∀ (s1 : JobStore) (jobId oname fpath : String)
        (fwd : Except JsError AckResult) (t : Nat),
        (finishUpload s1 jobId oname fpath fwd true t).store =
            (finishUpload s1 jobId oname fpath fwd false t).store ∧
        (finishUpload s1 jobId oname fpath fwd true t).result =
            (finishUpload s1 jobId oname fpath fwd false t).result ∧
        (finishUpload s1 jobId oname fpath fwd true t).unlinkAttempts =
            (finishUpload s1 jobId oname fpath fwd false t).unlinkAttempts) := by
  refine ⟨?_, ?_, ?_⟩
  · intro s1 jobId oname fpath fwd uf t
    cases fwd <;> rfl
  · intro s1 jobId oname fpath e uf t hjid
    have hje : jobId.isEmpty = false := isEmpty_false_of_ne jobId hjid
    exact ⟨by simp [finishUpload, hje], rfl⟩
  · intro s1 jobId oname fpath fwd t
    cases fwd <;> exact ⟨rfl, rfl, rfl⟩

/-- Demonstration job record in the initial `pending` state. -/
def demoPendingJob : Job :=
  { filenamePdf := "report.pdf", status := JobStatus.pending,
    createdAt := 0, updatedAt := 0 }

/-- Demonstration store holding one `pending` job under id `"job1"`. -/
def demoPendingStore : JobStore := [("job1", demoPendingJob)]

/-- Demonstration forwarding failure. -/
def demoForwardError : JsError :=
  { kind := JsErrorKind.genericError, msg := "boom" }

/-- Witness for C4: the error path at a concrete failed forward marks the
pending job `error` with the underlying message. -/
theorem upload_error_path_failjob_cleanup_rethrow_witness :
    (finishUpload demoPendingStore "job1" "report.pdf" "/tmp/up1"
        (Except.error demoForwardError) false 4).store =
      failJob demoPendingStore "job1" "boom" 4 :=
  (upload_error_path_failjob_cleanup_rethrow.2.1
    demoPendingStore "job1" "report.pdf" "/tmp/up1" demoForwardError false 4
    (by decide)).1

/-- C5: each of the three per-job read endpoints (status, download-url,
execution detail) rejects a syntactically invalid job id with the 400
`INVALID_JOB_ID` error before performing any Job Store lookup; for a valid
id exactly one `getJob` lookup happens, and only then can the request fail
with the 404 `JOB_NOT_FOUND` error. -/
theorem invalid_id_rejected_before_lookup (v : String → Bool)
    (g : String → Except String String) (s : JobStore) (jobId : String)
    (now : Nat) :
    (v jobId = false →
        (statusHandler v s jobId).lookups = [] ∧
        (statusHandler v s jobId).result = Except.error invalidJobIdError ∧
        (downloadUrlHandler v g s jobId now).lookups = [] ∧
        (downloadUrlHandler v g s jobId now).result =
          Except.error invalidJobIdError ∧
        (executionHandler v s jobId).lookups = [] ∧
        (executionHandler v s jobId).result = Except.error invalidJobIdError) ∧
    (v jobId = true →
        (statusHandler v s jobId).lookups = [jobId] ∧
        (downloadUrlHandler v g s jobId now).lookups = [jobId] ∧
        (executionHandler v s jobId).lookups = [jobId]) ∧
    (v jobId = true → getJob s jobId = none →
        (statusHandler v s jobId).result = Except.error jobNotFoundError ∧
        (downloadUrlHandler v g s jobId now).result =
          Except.error jobNotFoundError ∧
        (executionHandler v s jobId).result = Except.error jobNotFoundError) := by
  refine ⟨?_, ?_, ?_⟩
  · intro hv
    refine ⟨?_, ?_, ?_, ?_, ?_, ?_⟩ <;>
      simp [statusHandler, downloadUrlHandler, executionHandler,
            invalidJobIdError, hv]
  · intro hv
    refine ⟨?_, ?_, ?_⟩
    · cases hget : getJob s jobId <;> simp [statusHandler, hv, hget]
    · cases hget : getJob s jobId with
      | none => simp [downloadUrlHandler, hv, hget]
      | some j =>
          simp [downloadUrlHandler, hv, hget]
          split
          · split
            · rfl
            · split <;> rfl
          · rfl
    · cases hget : getJob s jobId with
      | none => simp [executionHandler, hv, hget]
      | some j =>
          simp [executionHandler, hv, hget]
          split <;> rfl
  · intro hv hget
    refine ⟨?_, ?_, ?_⟩ <;>
      simp [statusHandler, downloadUrlHandler, executionHandler,
            jobNotFoundError, hv, hget]

/-- Witness for C5: a malformed id against the empty store is rejected
with no lookup, and a well-formed unknown id yields the not-found error. -/
theorem invalid_id_rejected_before_lookup_witness :
    (statusHandler (fun _ => false) [] "bad id").lookups = [] ∧
    (statusHandler (fun _ => true) [] "unknown").result =
      Except.error jobNotFoundError :=
  ⟨(invalid_id_rejected_before_lookup (fun _ => false)
      (fun _ => Except.error "no") [] "bad id" 0).1 rfl |>.1,
   (invalid_id_rejected_before_lookup (fun _ => true)
      (fun _ => Except.error "no") [] "unknown" 0).2.2 rfl rfl |>.1⟩

/-- C6: the status view of a stored job has `ready` equal to
`status == done`; it carries an `execution` object exactly when execution
metadata (`executionId`) is attached to the job, a `downloadUrl` exactly
when the job is `done` and a stored download reference (`presignedUrl`)
is present, and an `error` field exactly when the job is in state `error`
and an error reason is set.  (The stored optional fields are assumed never
to hold the empty string, which is what the store operations guarantee:
attached metadata comes from truthiness-checked values.) -/
theorem status_view_fields (v : String → Bool) (s : JobStore) (jobId : String)
    (j : Job) (hv : v jobId = true) (hget : getJob s jobId = some j)
    (hx : j.executionId ≠ some "") (hp : j.presignedUrl ≠ some "")
    (he : j.error ≠ some "") :
    (statusHandler v s jobId).result = Except.ok (statusResponseOf jobId j) ∧
    (statusResponseOf jobId j).ready = (j.status == JobStatus.done) ∧
    ((statusResponseOf jobId j).execution.isSome ↔ j.executionId.isSome) ∧
    ((statusResponseOf jobId j).downloadUrl.isSome ↔
      (j.status = JobStatus.done ∧ j.presignedUrl.isSome)) ∧
    ((statusResponseOf jobId j).error.isSome ↔
      (j.status = JobStatus.error ∧ j.error.isSome)) := by
  refine ⟨by simp [statusHandler, hv, hget], rfl, ?_, ?_, ?_⟩
  · cases hjx : j.executionId with
    | none => simp [statusResponseOf, jsTruthyStr, hjx]
    | some val =>
        have hvne : val ≠ "" := by
          intro hval; rw [hval] at hjx; exact hx hjx
        simp [statusResponseOf, jsTruthyStr, hjx, isEmpty_false_of_ne val hvne]
  · cases hjp : j.presignedUrl with
    | none =>
        cases hst : j.status <;> simp [statusResponseOf, jsTruthyStr, hst, hjp]
    | some val =>
        have hvne : val ≠ "" := by
          intro hval; rw [hval] at hjp; exact hp hjp
        cases hst : j.status <;>
          simp [statusResponseOf, jsTruthyStr, hst, hjp,
                isEmpty_false_of_ne val hvne]
  · cases hje : j.error with
    | none =>
        cases hst : j.status <;> simp [statusResponseOf, jsTruthyStr, hst, hje]
    | some val =>
        have hvne : val ≠ "" := by
          intro hval; rw [hval] at hje; exact he hje
        cases hst : j.status <;>
          simp [statusResponseOf, jsTruthyStr, hst, hje,
                isEmpty_false_of_ne val hvne]

/-- Witness for C6: the status view of the concrete `done` job. -/
theorem status_view_fields_witness :
    (statusHandler (fun _ => true) demoStore "a").result =
      Except.ok (statusResponseOf "a" demoDoneJob) :=
  (status_view_fields (fun _ => true) demoStore "a" demoDoneJob rfl rfl
    (by decide) (by decide) (by decide)).1

/-- C7: the download-URL view requires `status == done`: for an existing
job in any other state it throws the 400 `JOB_NOT_READY` error and leaves
the store unchanged; for a `done` job with a stored result it obtains a
fresh URL from the storage collaborator, persists it onto the job via
`updateJob` (a non-status field), and answers
`{url, filename, expiresInSeconds}` where `filename` is the source
filename with its `.pdf` extension rewritten to `.csv`. -/
theorem download_url_requires_done (v : String → Bool)
    (g : String → Except String String) (s : JobStore) (jobId : String)
    (j : Job) (now : Nat) (hv : v jobId = true)
    (hget : getJob s jobId = some j) :
    (j.status ≠ JobStatus.done →
        (downloadUrlHandler v g s jobId now).store = s ∧
        (downloadUrlHandler v g s jobId now).result =
          Except.error jobNotReadyError) ∧
    (∀ url : String, j.status = JobStatus.done → jsTruthyStr j.r2Key = true →
        g jobId = Except.ok url →
        (downloadUrlHandler v g s jobId now).store =
          updateJob s jobId url now ∧
        (downloadUrlHandler v g s jobId now).result =
          Except.ok
            { url := url, filename := replacePdfWithCsv j.filenamePdf,
              expiresInSeconds := 3600 }) := by
  constructor
  · intro hnd
    have hb : (j.status != JobStatus.done) = true := by
      simp [bne_iff_ne, hnd]
    constructor <;> simp [downloadUrlHandler, jobNotReadyError, hv, hget, hb]
  · intro url hd hr2 hg
    constructor <;> simp [downloadUrlHandler, hv, hget, hd, hr2, hg]

/-- Witness for C7: the concrete `done` job gets a fresh URL persisted via
`updateJob`. -/
theorem download_url_requires_done_witness :
    (downloadUrlHandler (fun _ => true) (fun _ => Except.ok "http://dl/a")
        demoStore "a" 9).store = updateJob demoStore "a" "http://dl/a" 9 :=
  ((download_url_requires_done (fun _ => true)
      (fun _ => Except.ok "http://dl/a") demoStore "a" demoDoneJob 9 rfl
      rfl).2 "http://dl/a" rfl (by decide) rfl).1

/-- C8: the acknowledgment handling of the Workflow Forwarder
(`services/n8nClient.js` lines 81-103: metadata from the first element of
a non-empty array body, bare success otherwise) can never execute:
evaluated at its failing input — loading the module — the enclosing
function body fails to parse (duplicate `fileType` among the `try`
block's declarations), and the jobs router that would call it fails to
load in turn, so no synchronous n8n response is ever parsed into
execution metadata. -/
theorem ack_handling_unreachable :
    (firstDuplicateDecl forwardTryBlockConstDecls).isSome = true ∧
    loadJobsRouter = ModuleLoad.earlyError "fileType" := by decide

/-- C9: a callback request whose shared-secret header does not exactly
equal the configured secret is rejected before any store mutation; in the
limiter, a request whose secret header matches the configured secret skips
the per-IP callback limit, while every other callback request is counted
against the per-IP key. -/
theorem callback_secret_gate_and_limiter :
    (∀ (env hdr : Option String) (v : String → Bool) (jobId : String)
        (outcome : CallbackOutcome) (now : Nat) (s : JobStore),
        hdr ≠ env →
        (onCallback env hdr v jobId outcome now s).1 = s ∧
        (onCallback env hdr v jobId outcome now s).2 =
          Except.error unauthorizedError) ∧
    (∀ (counts : List (String × Nat)) (ip : String) (hdr env : Option String),
        (hdr = env → callbackLimiterStep counts ip hdr env = counts) ∧
        (hdr ≠ env →
          callbackLimiterStep counts ip hdr env =
            bumpCount counts (ip ++ "-callback"))) := by
  constructor
  · intro env hdr v jobId outcome now s hne
    have hb : (hdr == env) = false := by simp [hne]
    constructor <;> simp [onCallback, unauthorizedError, hb]
  · intro counts ip hdr env
    constructor
    · intro h
      simp [callbackLimiterStep, callbackSkip, h]
    · intro hne
      have hb : (hdr == env) = false := by simp [hne]
      simp [callbackLimiterStep, callbackSkip, hb]

/-- Witness for C9: a concrete callback without the secret header against
a configured secret leaves the store untouched, and is counted by the
limiter. -/
theorem callback_secret_gate_and_limiter_witness :
    (onCallback (some "sec") none (fun _ => true) "job1"
        (CallbackOutcome.success "r1") 1 demoPendingStore).1 =
      demoPendingStore ∧
    callbackLimiterStep [] "1.2.3.4" none (some "sec") =
      bumpCount [] ("1.2.3.4" ++ "-callback") :=
  ⟨(callback_secret_gate_and_limiter.1 (some "sec") none (fun _ => true)
      "job1" (CallbackOutcome.success "r1") 1 demoPendingStore
      (by decide)).1,
   (callback_secret_gate_and_limiter.2 [] "1.2.3.4" none (some "sec")).2
     (by decide)⟩

/-- C10: the callback limiter's skip predicate holds exactly when the
request's `x-callback-secret` header value strictly equals the
`CALLBACK_SECRET` environment value; in particular, when the environment
variable is unset, every request that omits the header satisfies it
(`undefined === undefined`), so all such unauthenticated callback traffic
bypasses the callback rate limit entirely. -/
theorem callback_skip_iff_secret_equal :
    callbackSkip none none = true ∧
    (∀ (counts : List (String × Nat)) (ip : String),
        callbackLimiterStep counts ip none none = counts) ∧
    (∀ h e : Option String, callbackSkip h e = true ↔ h = e) := by
  refine ⟨rfl, fun counts ip => rfl, ?_⟩
  intro h e
  simp [callbackSkip]

/-- Witness for C10: a matching concrete secret satisfies the skip
predicate. -/
theorem callback_skip_iff_secret_equal_witness :
    callbackSkip (some "sec") (some "sec") = true :=
  (callback_skip_iff_secret_equal.2.2 (some "sec") (some "sec")).mpr rfl
